import Mathlib

/-!
Shallow embedding of the rsume rendering pipeline (src/main.rs) and proofs of
the specification claims about it.

Modelling conventions:
* Rust `String`s are Lean `String`s; character-level processing works on
  `String.data : List Char`.
* `f64` values are modelled opaquely by the structure `F64`: an injective
  code of the bit pattern together with the finiteness flag that
  `serde_json`'s `Number::from_f64` tests when the value is serialized
  (non-finite floats become null nodes). No claim computes with
  floating-point arithmetic; the pipeline only moves these values.
* `tera::Value` (= `serde_json::Value`) is the inductive `Value`; JSON objects
  are association lists carrying the serializer's insertion order (objects are
  compared as key maps, the order is immaterial to the claims).
* Parsed TOML documents are the inductive `Toml`; textual TOML parsing is out
  of scope (the spec treats the input format as external), `toml::from_str`
  is modelled as serde-derive deserialization of an already-parsed document.
-/

namespace Rsume

/-- Opaque model of an IEEE-754 `f64`: `bits` is an injective code of the
bit pattern and `isFinite` records whether the value is finite (neither
NaN nor an infinity). The pipeline never computes with floats, but
serialization branches on finiteness (`serde_json::Number::from_f64`
returns `None` for non-finite input), so the flag is part of the model. -/
structure F64 where
  bits : Nat
  isFinite : Bool
  deriving DecidableEq, Repr

/-- Injective code for the `f64` a TOML integer coerces to (serde's `f64`
deserializer accepts integers); an integer always converts to a finite
float. Only injectivity matters to the claims. -/
def F64.ofInt (n : Int) : F64 :=
  ⟨2 * n.natAbs + if n < 0 then 1 else 0, true⟩

/-- `tera::Value`, i.e. `serde_json::Value`. -/
inductive Value where
  | null
  | bool (b : Bool)
  | num (x : F64)
  | str (s : String)
  | arr (xs : List Value)
  | obj (kvs : List (String × Value))

/-- Whether a `Value` is a JSON string (the only case
`tera::from_value::<String>` accepts). -/
def Value.isStr : Value → Bool
  | .str _ => true
  | _ => false

/-- Error raised by the `try_get_value!` macro inside a tera filter when the
argument does not deserialize at the expected type. -/
inductive TeraError where
  | filterArg (filterName argName : String) (v : Value)

/-- The escaped character set of `escape_latex` (src/main.rs line 149). -/
def isLatexSpecial (c : Char) : Bool :=
  c == '&' || c == '%' || c == '#' || c == '$'

/-- What the loop body of `escape_latex` emits for one character:
`output.push_str(format!("\\{}", c))` for a special character,
`output.push(c)` otherwise. -/
def escapeOne (c : Char) : List Char :=
  if isLatexSpecial c then ['\\', c] else [c]

/-- The `for c in input.chars()` loop of `escape_latex`, accumulating the
`output` string. -/
def escapeLoop (output : List Char) : List Char → List Char
  | [] => output
  | c :: rest => escapeLoop (output ++ escapeOne c) rest

/-- The string transform performed by `escape_latex` on its string payload. -/
def escapeLatexString (s : String) : String :=
  String.mk (escapeLoop [] s.data)

/-- The tera filter `escape_latex` (src/main.rs lines 144-155): extract the
string argument (erroring on any non-string value), escape it, wrap it back
into a `Value`. -/
def escape_latex (v : Value) : Except TeraError Value :=
  match v with
  | .str s => .ok (.str (escapeLatexString s))
  | _ => .error (.filterArg "escape_latex" "value" v)

/-- The per-character mapping exactly as the spec words it: for each input
character in order, emit the two-character escape sequence for a character of
the escaped set and the character itself otherwise. -/
def escapeSpecMap : List Char → List Char
  | [] => []
  | c :: rest => escapeOne c ++ escapeSpecMap rest

/-- `toml::value::Date` (year, month, day). -/
structure TomlDate where
  year : Nat
  month : Nat
  day : Nat
  deriving DecidableEq, Repr

/-- `toml::value::Time` (hour, minute, second, nanosecond). -/
structure TomlTime where
  hour : Nat
  minute : Nat
  second : Nat
  nanosecond : Nat
  deriving DecidableEq, Repr

/-- `toml::value::Offset`: `Z` or a custom offset in minutes. -/
inductive TomlOffset where
  | z
  | custom (minutes : Int)
  deriving DecidableEq, Repr

/-- `toml::value::Datetime`: optional date, time and offset components. A
datetime parsed from TOML always has a date or a time component. -/
structure Datetime where
  date : Option TomlDate
  time : Option TomlTime
  offset : Option TomlOffset
  deriving DecidableEq, Repr

/-- Left-pad a digit list with zeros to the given width, like Rust's
width-with-zero format specifier. -/
def padZeros (w : Nat) (cs : List Char) : List Char :=
  List.replicate (w - cs.length) '0' ++ cs

/-- Decimal digits of a natural number. -/
def natToChars (n : Nat) : List Char :=
  Nat.toDigits 10 n

/-- Characters of the `Display` impl of `toml::value::Date`:
zero-padded year-month-day. -/
def TomlDate.render (d : TomlDate) : List Char :=
  padZeros 4 (natToChars d.year) ++ '-' :: padZeros 2 (natToChars d.month)
    ++ '-' :: padZeros 2 (natToChars d.day)

/-- Drop trailing zero characters (Rust's trim of trailing zeros in the
fractional-second part). -/
def trimTrailingZeros (cs : List Char) : List Char :=
  (cs.reverse.dropWhile (· == '0')).reverse

/-- Characters of the `Display` impl of `toml::value::Time`: zero-padded
hour, minute, second, plus the trimmed fractional part when the nanosecond
field is nonzero. -/
def TomlTime.render (t : TomlTime) : List Char :=
  padZeros 2 (natToChars t.hour) ++ ':' :: padZeros 2 (natToChars t.minute)
    ++ ':' :: padZeros 2 (natToChars t.second)
    ++ (if t.nanosecond == 0 then []
        else '.' :: trimTrailingZeros (padZeros 9 (natToChars t.nanosecond)))

/-- Characters of the `Display` impl of `toml::value::Offset`. -/
def TomlOffset.render : TomlOffset → List Char
  | .z => ['Z']
  | .custom minutes =>
      (if minutes < 0 then '-' else '+')
        :: (padZeros 2 (natToChars (minutes.natAbs / 60))
            ++ ':' :: padZeros 2 (natToChars (minutes.natAbs % 60)))

/-- Characters of the `Display` impl of `toml::value::Datetime`: the date if
present, then the time if present (preceded by a separator when a date was
printed), then the offset if present. -/
def Datetime.render (dt : Datetime) : List Char :=
  (match dt.date with
   | some d => d.render
   | none => [])
  ++ (match dt.time with
      | some t => (if dt.date.isSome then ['T'] else []) ++ t.render
      | none => [])
  ++ (match dt.offset with
      | some o => o.render
      | none => [])

/-- `Datetime::to_string()` via the `Display` impl. -/
def Datetime.toString (dt : Datetime) : String :=
  String.mk dt.render

/-- A parsed TOML value (the raw structured input document of the spec). -/
inductive Toml where
  | str (s : String)
  | int (n : Int)
  | float (x : F64)
  | bool (b : Bool)
  | datetime (d : Datetime)
  | arr (xs : List Toml)
  | table (kvs : List (String × Toml))

/-- Structural deserialization errors: the spec's `SchemaError` taxonomy,
matching serde's `missing_field` / invalid-type errors raised by the derived
`Deserialize` impls. -/
inductive SchemaError where
  | missingField (name : String)
  | invalidType (expected : String)
  deriving DecidableEq, Repr

/-- Deserialize a Rust `String` field. -/
def deString : Toml → Except SchemaError String
  | .str s => .ok s
  | _ => .error (.invalidType "string")

/-- Deserialize a Rust `bool` field. -/
def deBool : Toml → Except SchemaError Bool
  | .bool b => .ok b
  | _ => .error (.invalidType "boolean")

/-- Deserialize a Rust `f64` field (serde also accepts TOML integers). -/
def deF64 : Toml → Except SchemaError F64
  | .float x => .ok x
  | .int n => .ok (F64.ofInt n)
  | _ => .error (.invalidType "float")

/-- Deserialize a `toml::value::Datetime` (only the TOML datetime value
deserializes to it). -/
def deDatetime : Toml → Except SchemaError Datetime
  | .datetime d => .ok d
  | _ => .error (.invalidType "datetime")

/-- The custom deserializer `datetime_to_string` (src/main.rs lines 126-132):
deserialize a `Datetime`, then render it with `to_string`. -/
def datetime_to_string (v : Toml) : Except SchemaError String :=
  match deDatetime v with
  | .ok d => .ok d.toString
  | .error e => .error e

/-- The custom deserializer `datetime_to_option_string` (src/main.rs lines
134-142) applied to a present value: in TOML a present value is never null,
so `Option::deserialize` yields `Some` and the datetime is rendered. -/
def datetime_to_option_string (v : Toml) : Except SchemaError (Option String) :=
  match deDatetime v with
  | .ok d => .ok (some d.toString)
  | .error e => .error e

/-- Look up a required struct field in a TOML table; a missing key is
serde's `Error::missing_field`. -/
def getField (kvs : List (String × Toml)) (name : String) : Except SchemaError Toml :=
  match kvs.lookup name with
  | some v => .ok v
  | none => .error (.missingField name)

/-- Deserialize every element of a TOML array. -/
def deListWith {α : Type} (f : Toml → Except SchemaError α) :
    List Toml → Except SchemaError (List α)
  | [] => .ok []
  | v :: rest => do
      let a ← f v
      let as ← deListWith f rest
      .ok (a :: as)

/-- Deserialize a Rust `Vec` field. -/
def deArrWith {α : Type} (f : Toml → Except SchemaError α) :
    Toml → Except SchemaError (List α)
  | .arr xs => deListWith f xs
  | _ => .error (.invalidType "array")

/-- `struct Location` (src/main.rs lines 32-39). -/
structure Location where
  address : String
  postal_code : String
  city : String
  country_code : String
  region : String
  deriving DecidableEq, Repr

/-- `struct Social` (src/main.rs lines 41-45). -/
structure Social where
  username : String
  url : String
  deriving DecidableEq, Repr

/-- `struct Company` (src/main.rs lines 47-51). -/
structure Company where
  name : String
  location : String
  deriving DecidableEq, Repr

/-- `struct Experience` (src/main.rs lines 53-67); the date fields already
hold the canonical strings produced by the custom deserializers. -/
structure Experience where
  company : Company
  department : String
  position : String
  website : String
  start_date : String
  end_date : Option String
  current : Bool
  display : List String
  highlights : List String
  deriving DecidableEq, Repr

/-- `struct GradePointAverage` (src/main.rs lines 69-73). -/
structure GradePointAverage where
  major : F64
  overall : F64
  deriving DecidableEq, Repr

/-- `struct Education` (src/main.rs lines 75-92). -/
structure Education where
  institution : String
  website : String
  major : String
  minor : String
  start_date : String
  end_date : Option String
  current : Bool
  gpa : GradePointAverage
  achievements : List String
  location : String
  degree : String
  latin_honors : String
  deriving DecidableEq, Repr

/-- `struct Skill` (src/main.rs lines 94-100). -/
structure Skill where
  name : String
  level : String
  keywords : String
  category : String
  deriving DecidableEq, Repr

/-- `struct Project` (src/main.rs lines 102-108). -/
structure Project where
  name : String
  website : String
  source : String
  description : String
  deriving DecidableEq, Repr

/-- `struct Author` (src/main.rs lines 110-124); the social map is carried
as an association list with the keys unique by TOML table well-formedness. -/
structure Author where
  name : String
  email : String
  description : String
  picture : String
  phone : String
  website : String
  location : Location
  social : List (String × Social)
  experiences : List Experience
  educations : List Education
  skills : List Skill
  projects : List Project
  deriving DecidableEq, Repr

/-!
The derived `Deserialize` impls iterate the input map's entries and then
report the first missing required field, in declaration order, at map end.
We model field extraction in declaration order; this coincides with the
generated code on every document whose present fields are well-typed, which
is the regime of all theorems below (the two differ only in which error is
reported when a document both misses a field and mistypes another).
-/

/-- Derived deserializer for `Location`. -/
def deserializeLocation (v : Toml) : Except SchemaError Location :=
  match v with
  | .table kvs => do
      let address ← getField kvs "address" >>= deString
      let postal_code ← getField kvs "postal_code" >>= deString
      let city ← getField kvs "city" >>= deString
      let country_code ← getField kvs "country_code" >>= deString
      let region ← getField kvs "region" >>= deString
      .ok { address, postal_code, city, country_code, region }
  | _ => .error (.invalidType "table")

/-- Derived deserializer for `Social`. -/
def deserializeSocial (v : Toml) : Except SchemaError Social :=
  match v with
  | .table kvs => do
      let username ← getField kvs "username" >>= deString
      let url ← getField kvs "url" >>= deString
      .ok { username, url }
  | _ => .error (.invalidType "table")

/-- Deserialize the entries of the `HashMap<String, Social>` field, keeping
the input key order. -/
def deSocialEntries : List (String × Toml) → Except SchemaError (List (String × Social))
  | [] => .ok []
  | (k, v) :: rest => do
      let s ← deserializeSocial v
      let tail ← deSocialEntries rest
      .ok ((k, s) :: tail)

/-- Derived deserializer for the `social` map field. -/
def deSocialMap : Toml → Except SchemaError (List (String × Social))
  | .table kvs => deSocialEntries kvs
  | _ => .error (.invalidType "table")

/-- Derived deserializer for `Company`. -/
def deserializeCompany (v : Toml) : Except SchemaError Company :=
  match v with
  | .table kvs => do
      let name ← getField kvs "name" >>= deString
      let location ← getField kvs "location" >>= deString
      .ok { name, location }
  | _ => .error (.invalidType "table")

/-- Derived deserializer for `Experience`: `start_date` goes through
`datetime_to_string`; `end_date` is `#[serde(default)]` (absent key gives
`None`) and a present value goes through `datetime_to_option_string`. -/
def deserializeExperience (v : Toml) : Except SchemaError Experience :=
  match v with
  | .table kvs => do
      let company ← getField kvs "company" >>= deserializeCompany
      let department ← getField kvs "department" >>= deString
      let position ← getField kvs "position" >>= deString
      let website ← getField kvs "website" >>= deString
      let start_date ← getField kvs "start_date" >>= datetime_to_string
      let end_date ← match kvs.lookup "end_date" with
        | none => Except.ok none
        | some w => datetime_to_option_string w
      let current ← getField kvs "current" >>= deBool
      let display ← getField kvs "display" >>= deArrWith deString
      let highlights ← getField kvs "highlights" >>= deArrWith deString
      .ok { company, department, position, website, start_date, end_date,
            current, display, highlights }
  | _ => .error (.invalidType "table")

/-- Derived deserializer for `GradePointAverage`. -/
def deserializeGpa (v : Toml) : Except SchemaError GradePointAverage :=
  match v with
  | .table kvs => do
      let major ← getField kvs "major" >>= deF64
      let overall ← getField kvs "overall" >>= deF64
      .ok { major, overall }
  | _ => .error (.invalidType "table")

/-- Derived deserializer for `Education`, date fields handled as in
`Experience`. -/
def deserializeEducation (v : Toml) : Except SchemaError Education :=
  match v with
  | .table kvs => do
      let institution ← getField kvs "institution" >>= deString
      let website ← getField kvs "website" >>= deString
      let major ← getField kvs "major" >>= deString
      let minor ← getField kvs "minor" >>= deString
      let start_date ← getField kvs "start_date" >>= datetime_to_string
      let end_date ← match kvs.lookup "end_date" with
        | none => Except.ok none
        | some w => datetime_to_option_string w
      let current ← getField kvs "current" >>= deBool
      let gpa ← getField kvs "gpa" >>= deserializeGpa
      let achievements ← getField kvs "achievements" >>= deArrWith deString
      let location ← getField kvs "location" >>= deString
      let degree ← getField kvs "degree" >>= deString
      let latin_honors ← getField kvs "latin_honors" >>= deString
      .ok { institution, website, major, minor, start_date, end_date, current,
            gpa, achievements, location, degree, latin_honors }
  | _ => .error (.invalidType "table")

/-- Derived deserializer for `Skill`. -/
def deserializeSkill (v : Toml) : Except SchemaError Skill :=
  match v with
  | .table kvs => do
      let name ← getField kvs "name" >>= deString
      let level ← getField kvs "level" >>= deString
      let keywords ← getField kvs "keywords" >>= deString
      let category ← getField kvs "category" >>= deString
      .ok { name, level, keywords, category }
  | _ => .error (.invalidType "table")

/-- Derived deserializer for `Project`. -/
def deserializeProject (v : Toml) : Except SchemaError Project :=
  match v with
  | .table kvs => do
      let name ← getField kvs "name" >>= deString
      let website ← getField kvs "website" >>= deString
      let source ← getField kvs "source" >>= deString
      let description ← getField kvs "description" >>= deString
      .ok { name, website, source, description }
  | _ => .error (.invalidType "table")

/-- Derived deserializer for `Author`: the validation step of the pipeline,
`toml::from_str::<Author>` applied to the parsed document. -/
def deserializeAuthor (v : Toml) : Except SchemaError Author :=
  match v with
  | .table kvs => do
      let name ← getField kvs "name" >>= deString
      let email ← getField kvs "email" >>= deString
      let description ← getField kvs "description" >>= deString
      let picture ← getField kvs "picture" >>= deString
      let phone ← getField kvs "phone" >>= deString
      let website ← getField kvs "website" >>= deString
      let location ← getField kvs "location" >>= deserializeLocation
      let social ← getField kvs "social" >>= deSocialMap
      let experiences ← getField kvs "experiences" >>= deArrWith deserializeExperience
      let educations ← getField kvs "educations" >>= deArrWith deserializeEducation
      let skills ← getField kvs "skills" >>= deArrWith deserializeSkill
      let projects ← getField kvs "projects" >>= deArrWith deserializeProject
      .ok { name, email, description, picture, phone, website, location,
            social, experiences, educations, skills, projects }
  | _ => .error (.invalidType "table")

/-!
Serialization of the data model into the tera value tree, following the
derived `Serialize` impls: a struct becomes a JSON object with one entry per
field under the field's name, in declaration order; a `Vec` becomes an
array; an `Option` becomes the value or null; the `HashMap` becomes an
object with one entry per key.
-/

/-- Serialization of a Rust `Option<String>` field. -/
def optionStringToValue : Option String → Value
  | some s => .str s
  | none => .null

/-- Serialization of a Rust `f64` field: `serde_json` builds a number via
`Number::from_f64`, which succeeds exactly on finite values; a non-finite
float (NaN or an infinity) serializes as `Value::Null`. -/
def f64ToValue (x : F64) : Value :=
  if x.isFinite then .num x else .null

/-- Derived `Serialize` for `Location`. -/
def Location.toValue (l : Location) : Value :=
  .obj [("address", .str l.address), ("postal_code", .str l.postal_code),
        ("city", .str l.city), ("country_code", .str l.country_code),
        ("region", .str l.region)]

/-- Derived `Serialize` for `Social`. -/
def Social.toValue (s : Social) : Value :=
  .obj [("username", .str s.username), ("url", .str s.url)]

/-- Derived `Serialize` for `Company`. -/
def Company.toValue (c : Company) : Value :=
  .obj [("name", .str c.name), ("location", .str c.location)]

/-- Derived `Serialize` for `Experience`. -/
def Experience.toValue (e : Experience) : Value :=
  .obj [("company", e.company.toValue), ("department", .str e.department),
        ("position", .str e.position), ("website", .str e.website),
        ("start_date", .str e.start_date),
        ("end_date", optionStringToValue e.end_date),
        ("current", .bool e.current),
        ("display", .arr (e.display.map Value.str)),
        ("highlights", .arr (e.highlights.map Value.str))]

/-- Derived `Serialize` for `GradePointAverage`: its two `f64` fields go
through the float serialization, so a non-finite GPA becomes a null node. -/
def GradePointAverage.toValue (g : GradePointAverage) : Value :=
  .obj [("major", f64ToValue g.major), ("overall", f64ToValue g.overall)]

/-- Derived `Serialize` for `Education`. -/
def Education.toValue (e : Education) : Value :=
  .obj [("institution", .str e.institution), ("website", .str e.website),
        ("major", .str e.major), ("minor", .str e.minor),
        ("start_date", .str e.start_date),
        ("end_date", optionStringToValue e.end_date),
        ("current", .bool e.current), ("gpa", e.gpa.toValue),
        ("achievements", .arr (e.achievements.map Value.str)),
        ("location", .str e.location), ("degree", .str e.degree),
        ("latin_honors", .str e.latin_honors)]

/-- Derived `Serialize` for `Skill`. -/
def Skill.toValue (s : Skill) : Value :=
  .obj [("name", .str s.name), ("level", .str s.level),
        ("keywords", .str s.keywords), ("category", .str s.category)]

/-- Derived `Serialize` for `Project`. -/
def Project.toValue (p : Project) : Value :=
  .obj [("name", .str p.name), ("website", .str p.website),
        ("source", .str p.source), ("description", .str p.description)]

/-- Derived `Serialize` for `Author` (the root of the context tree). -/
def Author.toValue (a : Author) : Value :=
  .obj [("name", .str a.name), ("email", .str a.email),
        ("description", .str a.description), ("picture", .str a.picture),
        ("phone", .str a.phone), ("website", .str a.website),
        ("location", a.location.toValue),
        ("social", .obj (a.social.map (fun p => (p.1, p.2.toValue)))),
        ("experiences", .arr (a.experiences.map Experience.toValue)),
        ("educations", .arr (a.educations.map Education.toValue)),
        ("skills", .arr (a.skills.map Skill.toValue)),
        ("projects", .arr (a.projects.map Project.toValue))]

/-- The key list of a JSON object value. -/
def entryKeys (v : Value) : List String :=
  match v with
  | .obj kvs => kvs.map Prod.fst
  | _ => []

/-- Look up one node of a JSON object value by key. -/
def getNode (v : Value) (k : String) : Option Value :=
  match v with
  | .obj kvs => kvs.lookup k
  | _ => none

/-- `tera::Context`: the top-level key/value bindings handed to the
template engine. -/
structure Context where
  data : List (String × Value)

/-- `tera::Context::from_serialize`: succeeds exactly when the serialized
value is a JSON object, binding its entries; any other value is rejected. -/
def contextFromSerialize (v : Value) : Except String Context :=
  match v with
  | .obj kvs => .ok ⟨kvs⟩
  | _ => .error "context must be built from a top-level object"

/-- Failure of step 1 of the pipeline (reading the data file). -/
inductive IoError where
  | unreadable (msg : String)
  deriving Repr

/-- Failures of the template engine: loading/parsing the template directory
(`Tera::new`) or rendering the entry-point template. -/
inductive TemplateError where
  | parseError (msg : String)
  | renderError (msg : String)
  deriving DecidableEq, Repr

/-- Failure of the document compiler (`latex_to_pdf`). -/
inductive CompilationError where
  | engineFailed (msg : String)
  deriving Repr

/-- A run aborts with the error of the first failing stage. -/
inductive RunError where
  | ioFailure (e : IoError)
  | schema (e : SchemaError)
  | contextConv (msg : String)
  | template (e : TemplateError)
  | compilation (e : CompilationError)
  deriving Repr

/-- Lift a stage error into the run error. -/
def liftErr {ε α : Type} (f : ε → RunError) : Except ε α → Except RunError α
  | .ok a => .ok a
  | .error e => .error (f e)

/-- The `main` pipeline (src/main.rs lines 157-200), parameterized by the
external collaborators: reading+parsing the data file, loading the template
directory (`Tera::new`, of abstract engine state `T`), rendering the named
entry-point template against the context, and the document compiler
(`latex_to_pdf`), which returns the list of output files it wrote. Every
stage failure aborts the run (each `expect`/`exit(1)` in `main` terminates
the process with a nonzero status). -/
def runMain {T : Type} (readData : Except IoError Toml)
    (loadTemplates : Except TemplateError T)
    (render : T → String → Context → Except TemplateError String)
    (compile : String → Except CompilationError (List String))
    (templateFilename : String) : Except RunError (List String) := do
  let doc ← liftErr RunError.ioFailure readData
  let author ← liftErr RunError.schema (deserializeAuthor doc)
  let t ← liftErr RunError.template loadTemplates
  let ctx ← liftErr RunError.contextConv (contextFromSerialize author.toValue)
  let rendered ← liftErr RunError.template (render t templateFilename ctx)
  let written ← liftErr RunError.compilation (compile rendered)
  pure written

/-- The process exits successfully iff no stage failed: every failure path
in `main` is an `expect` panic or an explicit `exit(1)`, both of which give
a nonzero exit code. -/
def exitSuccess : Except RunError (List String) → Bool
  | .ok _ => true
  | .error _ => false

/-- The output files written by a run: the compiler's outputs on success,
nothing when the run aborted. -/
def writtenFiles : Except RunError (List String) → List String
  | .ok fs => fs
  | .error _ => []

/-!
Parameterized well-typed input documents, used to state the claims about
the validator on whole families of inputs.
-/

/-- A well-typed `location` table. -/
def locationKvs (address postal city country region : String) :
    List (String × Toml) :=
  [("address", .str address), ("postal_code", .str postal),
   ("city", .str city), ("country_code", .str country), ("region", .str region)]

/-- A well-typed `Author` document that lacks the required `name` field but
supplies every other field. -/
def authorKvsNoName (email description picture phone website : String)
    (address postal city country region : String) : List (String × Toml) :=
  [("email", .str email), ("description", .str description),
   ("picture", .str picture), ("phone", .str phone), ("website", .str website),
   ("location", .table (locationKvs address postal city country region)),
   ("social", .table []), ("experiences", .arr []), ("educations", .arr []),
   ("skills", .arr []), ("projects", .arr [])]

/-- A well-typed `Experience` table with every field supplied except that the
optional `end_date` entry is present exactly when `endd` is `some`. -/
def experienceKvs (cname cloc department position website : String)
    (start : Datetime) (endd : Option Datetime) (current : Bool)
    (d1 h1 : String) : List (String × Toml) :=
  [("company", .table [("name", .str cname), ("location", .str cloc)]),
   ("department", .str department), ("position", .str position),
   ("website", .str website), ("start_date", .datetime start)]
  ++ (match endd with
      | some d => [("end_date", Toml.datetime d)]
      | none => [])
  ++ [("current", .bool current), ("display", .arr [.str d1]),
      ("highlights", .arr [.str h1])]

/-- A well-typed `Education` table, with the optional `end_date` entry
present exactly when `endd` is `some`. -/
def educationKvs (institution website major minor : String)
    (start : Datetime) (endd : Option Datetime) (current : Bool)
    (gmaj govl : F64) (ach location degree honors : String) :
    List (String × Toml) :=
  [("institution", .str institution), ("website", .str website),
   ("major", .str major), ("minor", .str minor),
   ("start_date", .datetime start)]
  ++ (match endd with
      | some d => [("end_date", Toml.datetime d)]
      | none => [])
  ++ [("current", .bool current),
      ("gpa", .table [("major", .float gmaj), ("overall", .float govl)]),
      ("achievements", .arr [.str ach]), ("location", .str location),
      ("degree", .str degree), ("latin_honors", .str honors)]

/-- A small complete, valid input document. -/
def sampleAuthorKvs : List (String × Toml) :=
  [("name", .str "Ada"), ("email", .str "ada@example.com"),
   ("description", .str "engineer"), ("picture", .str "pic.png"),
   ("phone", .str "555-0100"), ("website", .str "https://ada.dev"),
   ("location", .table (locationKvs "1 Main St" "00000" "Town" "US" "CA")),
   ("social", .table [("github", .table [("username", .str "ada"),
                                         ("url", .str "https://github.com/ada")])]),
   ("experiences", .arr []), ("educations", .arr []),
   ("skills", .arr []), ("projects", .arr [])]

/-- A sample structured date-time input (2020-01-15, date only). -/
def sampleDatetime : Datetime :=
  ⟨some ⟨2020, 1, 15⟩, none, none⟩

/-- The quiet-NaN `f64` (bit pattern 0x7FF8000000000000): a non-finite
float, reachable from the TOML literal nan, which the program never checks
for finiteness. -/
def nanF64 : F64 :=
  ⟨9221120237041090560, false⟩

/-- A `GradePointAverage` holding NaN in both fields. -/
def nanGpa : GradePointAverage :=
  ⟨nanF64, nanF64⟩

/-- The `Author` the sample document validates to. -/
def sampleAuthor : Author :=
  { name := "Ada", email := "ada@example.com", description := "engineer",
    picture := "pic.png", phone := "555-0100", website := "https://ada.dev",
    location := { address := "1 Main St", postal_code := "00000",
                  city := "Town", country_code := "US", region := "CA" },
    social := [("github", { username := "ada", url := "https://github.com/ada" })],
    experiences := [], educations := [], skills := [], projects := [] }

/-- The entry list of an object value (empty for non-objects). -/
def objEntries : Value → List (String × Value)
  | .obj kvs => kvs
  | _ => []

/-- The context built from the sample author. -/
def sampleCtx : Context :=
  ⟨objEntries sampleAuthor.toValue⟩

/-!
Theorems. First the helper lemmas about the escaping transform, then one
theorem per specification claim.
-/

theorem escapeLoop_eq (output : List Char) (cs : List Char) :
    escapeLoop output cs = output ++ escapeSpecMap cs := by
  induction cs generalizing output with
  | nil => simp [escapeLoop, escapeSpecMap]
  | cons c rest ih => simp [escapeLoop, escapeSpecMap, ih, List.append_assoc]

theorem escapeSpecMap_length (cs : List Char) :
    (escapeSpecMap cs).length = cs.length + cs.countP isLatexSpecial := by
  induction cs with
  | nil => simp [escapeSpecMap]
  | cons c rest ih =>
      by_cases h : isLatexSpecial c
      · simp [escapeSpecMap, escapeOne, h, ih, List.countP_cons]
        omega
      · simp [escapeSpecMap, escapeOne, h, ih, List.countP_cons]
        omega

theorem escapeSpecMap_countP (cs : List Char) :
    (escapeSpecMap cs).countP isLatexSpecial = cs.countP isLatexSpecial := by
  induction cs with
  | nil => rfl
  | cons c rest ih =>
      by_cases h : isLatexSpecial c
      · simp [escapeSpecMap, escapeOne, h, List.countP_cons, List.countP_append, ih]
        decide
      · simp [escapeSpecMap, escapeOne, h, List.countP_cons, List.countP_append, ih]

theorem escapeSpecMap_precede (cs : List Char) :
    ∀ i, i < (escapeSpecMap cs).length →
      isLatexSpecial ((escapeSpecMap cs).getD i ' ') = true →
      1 ≤ i ∧ (escapeSpecMap cs).getD (i - 1) ' ' = '\\' := by
  induction cs with
  | nil => intro i hi; simp [escapeSpecMap] at hi
  | cons c rest ih =>
      intro i hi hspec
      by_cases h : isLatexSpecial c
      · have hb : escapeSpecMap (c :: rest) = '\\' :: c :: escapeSpecMap rest := by
          simp [escapeSpecMap, escapeOne, h]
        rw [hb] at hi hspec ⊢
        match i with
        | 0 =>
            simp only [List.getD_cons_zero] at hspec
            exact absurd hspec (by decide)
        | 1 => exact ⟨le_refl 1, rfl⟩
        | (j + 2) =>
            simp only [List.getD_cons_succ] at hspec ⊢
            simp only [List.length_cons] at hi
            have hj : j < (escapeSpecMap rest).length := by omega
            obtain ⟨h1, h2⟩ := ih j hj hspec
            refine ⟨by omega, ?_⟩
            have : j + 2 - 1 = (j - 1) + 2 := by omega
            rw [this]
            simpa using h2
      · have hb : escapeSpecMap (c :: rest) = c :: escapeSpecMap rest := by
          simp [escapeSpecMap, escapeOne, h]
        rw [hb] at hi hspec ⊢
        match i with
        | 0 => simp at hspec; simp [hspec] at h
        | (j + 1) =>
            simp only [List.getD_cons_succ] at hspec
            simp only [List.length_cons] at hi
            have hj : j < (escapeSpecMap rest).length := by omega
            obtain ⟨h1, h2⟩ := ih j hj hspec
            refine ⟨by omega, ?_⟩
            have : j + 1 - 1 = (j - 1) + 1 := by omega
            rw [this]
            simpa using h2

theorem sublist_escapeSpecMap (cs : List Char) :
    List.Sublist cs (escapeSpecMap cs) := by
  induction cs with
  | nil => simp [escapeSpecMap]
  | cons c rest ih =>
      by_cases h : isLatexSpecial c
      · have hb : escapeSpecMap (c :: rest) = '\\' :: c :: escapeSpecMap rest := by
          simp [escapeSpecMap, escapeOne, h]
        rw [hb]
        exact List.Sublist.cons _ (List.Sublist.cons₂ _ ih)
      · have hb : escapeSpecMap (c :: rest) = c :: escapeSpecMap rest := by
          simp [escapeSpecMap, escapeOne, h]
        rw [hb]
        exact List.Sublist.cons₂ _ ih

theorem escapeLatexString_data (s : String) :
    (escapeLatexString s).data = escapeSpecMap s.data := by
  simp [escapeLatexString, escapeLoop_eq]

theorem padZeros_length (w : Nat) (cs : List Char) :
    (padZeros w cs).length = (w - cs.length) + cs.length := by
  simp [padZeros]

/-- C1: escape_latex processes each input character in order, emitting
backslash-then-character for a character of the set & % # $ and every other
character unchanged; consequently the output is at least as long as the
input, every occurrence of a set character in the output is preceded by the
backslash escape marker, and the characters outside the set appear
unchanged and in their original order (the input, and in particular the
subsequence of its non-set characters, is a subsequence of the output). -/
theorem escape_latex_transform_c1 (s : String) :
    escapeLatexString s = String.mk (escapeSpecMap s.data)
    ∧ s.length ≤ (escapeLatexString s).length
    ∧ (∀ i, i < (escapeLatexString s).data.length →
        isLatexSpecial ((escapeLatexString s).data.getD i ' ') = true →
        1 ≤ i ∧ (escapeLatexString s).data.getD (i - 1) ' ' = '\\')
    ∧ List.Sublist (s.data.filter (fun c => !isLatexSpecial c))
        (escapeLatexString s).data
    ∧ List.Sublist s.data (escapeLatexString s).data := by
  refine ⟨?_, ?_, ?_, ?_, ?_⟩
  · simp [escapeLatexString, escapeLoop_eq]
  · show s.data.length ≤ (escapeLatexString s).data.length
    rw [escapeLatexString_data, escapeSpecMap_length]
    omega
  · simp only [escapeLatexString_data]
    exact escapeSpecMap_precede s.data
  · simp only [escapeLatexString_data]
    exact (List.filter_sublist _).trans (sublist_escapeSpecMap s.data)
  · simp only [escapeLatexString_data]
    exact sublist_escapeSpecMap s.data

/-- C1 witness: the claim instantiated at the concrete input "a&b". -/
theorem escape_latex_transform_c1_witness :
    escapeLatexString "a&b" = String.mk (escapeSpecMap ("a&b" : String).data)
    ∧ ("a&b" : String).length ≤ (escapeLatexString "a&b").length
    ∧ (∀ i, i < (escapeLatexString "a&b").data.length →
        isLatexSpecial ((escapeLatexString "a&b").data.getD i ' ') = true →
        1 ≤ i ∧ (escapeLatexString "a&b").data.getD (i - 1) ' ' = '\\')
    ∧ List.Sublist (("a&b" : String).data.filter (fun c => !isLatexSpecial c))
        (escapeLatexString "a&b").data
    ∧ List.Sublist ("a&b" : String).data (escapeLatexString "a&b").data :=
  escape_latex_transform_c1 "a&b"

/-- C5: on any string containing a character of the escaped set, applying
the escaping transform twice yields a different string than applying it
once — the transform is not idempotent on such inputs. -/
theorem escape_latex_not_idempotent_c5 (s : String)
    (h : ∃ c ∈ s.data, isLatexSpecial c = true) :
    escapeLatexString (escapeLatexString s) ≠ escapeLatexString s := by
  intro heq
  have hlen : (escapeLatexString (escapeLatexString s)).data.length
      = (escapeLatexString s).data.length := by rw [heq]
  rw [escapeLatexString_data, escapeSpecMap_length, escapeLatexString_data,
      escapeSpecMap_countP] at hlen
  have hpos : 0 < s.data.countP isLatexSpecial := by
    rcases h with ⟨c, hc, hs⟩
    exact List.countP_pos_iff.mpr ⟨c, hc, hs⟩
  omega

/-- C5 witness: the single-character string "&" contains an escapable
character and double-escaping it differs from single-escaping it. -/
theorem escape_latex_not_idempotent_c5_witness :
    (∃ c ∈ ("&" : String).data, isLatexSpecial c = true)
    ∧ escapeLatexString (escapeLatexString "&") ≠ escapeLatexString "&" :=
  ⟨by decide, escape_latex_not_idempotent_c5 "&" (by decide)⟩

/-- C6: the escape_latex filter is total on strings — on every string value
it returns a successful string result and no error branch is taken. -/
theorem escape_latex_total_c6 (s : String) :
    escape_latex (Value.str s) = Except.ok (Value.str (escapeLatexString s)) :=
  rfl

/-- C10: applied to any non-string template value, the escape_latex filter
returns the try_get_value error rather than a value — it does not coerce
non-string inputs. -/
theorem escape_latex_nonstring_c10 (v : Value) (h : v.isStr = false) :
    escape_latex v = Except.error (.filterArg "escape_latex" "value" v) := by
  cases v with
  | str s => simp [Value.isStr] at h
  | null => rfl
  | bool b => rfl
  | num x => rfl
  | arr xs => rfl
  | obj kvs => rfl

/-- C10 witness: the filter rejects the boolean value true. -/
theorem escape_latex_nonstring_c10_witness :
    (Value.bool true).isStr = false
    ∧ escape_latex (Value.bool true)
        = Except.error (.filterArg "escape_latex" "value" (Value.bool true)) :=
  ⟨rfl, escape_latex_nonstring_c10 (Value.bool true) rfl⟩

/-- C4: on every structured date-time input (which always carries a date or
a time component), the validator's date normalization deserializes it and
renders a non-empty canonical string, deterministically (equal inputs give
equal output strings). -/
theorem datetime_to_string_c4 (d : Datetime)
    (h : d.date.isSome = true ∨ d.time.isSome = true) :
    datetime_to_string (Toml.datetime d) = Except.ok (Datetime.toString d)
    ∧ Datetime.toString d ≠ ""
    ∧ ∀ d2 : Datetime, d2 = d → Datetime.toString d2 = Datetime.toString d := by
  refine ⟨rfl, ?_, fun d2 he => by rw [he]⟩
  have hlen : 0 < d.render.length := by
    rcases d with ⟨dd, tt, oo⟩
    cases dd with
    | some dd0 =>
        simp [Datetime.render, TomlDate.render, padZeros_length,
              List.length_append]
    | none =>
        cases tt with
        | some t0 =>
            simp [Datetime.render, TomlTime.render, padZeros_length,
                  List.length_append]
        | none => simp at h
  intro he
  have hnil : d.render = [] := congrArg String.data he
  rw [hnil] at hlen
  simp at hlen

/-- C4 witness: the claim instantiated at the concrete date 2020-01-15. -/
theorem datetime_to_string_c4_witness :
    (sampleDatetime.date.isSome = true ∨ sampleDatetime.time.isSome = true)
    ∧ (datetime_to_string (Toml.datetime sampleDatetime)
        = Except.ok (Datetime.toString sampleDatetime)
      ∧ Datetime.toString sampleDatetime ≠ ""
      ∧ ∀ d2 : Datetime, d2 = sampleDatetime →
          Datetime.toString d2 = Datetime.toString sampleDatetime) :=
  ⟨Or.inl rfl, datetime_to_string_c4 sampleDatetime (Or.inl rfl)⟩

/-- C2 counterexample: the claim as stated fails on the code. On a
GradePointAverage holding NaN (reachable, since TOML accepts the nan float
literal and the program never checks finiteness), serialization emits a
null node in place of the field's value, so the context tree does not
carry the same value as the data model. -/
theorem context_builder_c2_counterexample :
    getNode (GradePointAverage.toValue nanGpa) "major" = some Value.null
    ∧ ¬ getNode (GradePointAverage.toValue nanGpa) "major"
        = some (Value.num nanGpa.major) :=
  ⟨rfl, fun h => Value.noConfusion (Option.some.inj h)⟩

/-- C2 (amended): building the template context from any Author succeeds
and yields a tree with exactly one node per schema field of every entity,
under the schema's field names; every node carries the field's value, with
the single exception that a non-finite float field (a NaN or infinite GPA)
serializes as a null node, a finite float as its number. No field is
dropped or renamed. -/
theorem context_builder_c2 (a : Author) :
    (∃ ctx : Context, contextFromSerialize a.toValue = Except.ok ctx
      ∧ ctx.data.map Prod.fst = ["name", "email", "description", "picture",
          "phone", "website", "location", "social", "experiences",
          "educations", "skills", "projects"])
    ∧ entryKeys a.toValue = ["name", "email", "description", "picture",
        "phone", "website", "location", "social", "experiences",
        "educations", "skills", "projects"]
    ∧ getNode a.toValue "name" = some (Value.str a.name)
    ∧ getNode a.toValue "email" = some (Value.str a.email)
    ∧ getNode a.toValue "description" = some (Value.str a.description)
    ∧ getNode a.toValue "picture" = some (Value.str a.picture)
    ∧ getNode a.toValue "phone" = some (Value.str a.phone)
    ∧ getNode a.toValue "website" = some (Value.str a.website)
    ∧ getNode a.toValue "location" = some a.location.toValue
    ∧ getNode a.toValue "social"
        = some (Value.obj (a.social.map (fun p => (p.1, p.2.toValue))))
    ∧ getNode a.toValue "experiences"
        = some (Value.arr (a.experiences.map Experience.toValue))
    ∧ getNode a.toValue "educations"
        = some (Value.arr (a.educations.map Education.toValue))
    ∧ getNode a.toValue "skills"
        = some (Value.arr (a.skills.map Skill.toValue))
    ∧ getNode a.toValue "projects"
        = some (Value.arr (a.projects.map Project.toValue))
    ∧ (∀ l : Location, entryKeys l.toValue
          = ["address", "postal_code", "city", "country_code", "region"]
        ∧ getNode l.toValue "address" = some (Value.str l.address)
        ∧ getNode l.toValue "postal_code" = some (Value.str l.postal_code)
        ∧ getNode l.toValue "city" = some (Value.str l.city)
        ∧ getNode l.toValue "country_code" = some (Value.str l.country_code)
        ∧ getNode l.toValue "region" = some (Value.str l.region))
    ∧ (∀ s : Social, entryKeys s.toValue = ["username", "url"]
        ∧ getNode s.toValue "username" = some (Value.str s.username)
        ∧ getNode s.toValue "url" = some (Value.str s.url))
    ∧ (∀ c : Company, entryKeys c.toValue = ["name", "location"]
        ∧ getNode c.toValue "name" = some (Value.str c.name)
        ∧ getNode c.toValue "location" = some (Value.str c.location))
    ∧ (∀ e : Experience, entryKeys e.toValue
          = ["company", "department", "position", "website", "start_date",
             "end_date", "current", "display", "highlights"]
        ∧ getNode e.toValue "company" = some e.company.toValue
        ∧ getNode e.toValue "department" = some (Value.str e.department)
        ∧ getNode e.toValue "position" = some (Value.str e.position)
        ∧ getNode e.toValue "website" = some (Value.str e.website)
        ∧ getNode e.toValue "start_date" = some (Value.str e.start_date)
        ∧ getNode e.toValue "end_date" = some (optionStringToValue e.end_date)
        ∧ getNode e.toValue "current" = some (Value.bool e.current)
        ∧ getNode e.toValue "display" = some (Value.arr (e.display.map Value.str))
        ∧ getNode e.toValue "highlights"
            = some (Value.arr (e.highlights.map Value.str)))
    ∧ (∀ g : GradePointAverage, entryKeys g.toValue = ["major", "overall"]
        ∧ getNode g.toValue "major" = some (f64ToValue g.major)
        ∧ getNode g.toValue "overall" = some (f64ToValue g.overall)
        ∧ (g.major.isFinite = true → f64ToValue g.major = Value.num g.major)
        ∧ (g.overall.isFinite = true →
            f64ToValue g.overall = Value.num g.overall)
        ∧ (g.major.isFinite = false → f64ToValue g.major = Value.null)
        ∧ (g.overall.isFinite = false → f64ToValue g.overall = Value.null))
    ∧ (∀ e : Education, entryKeys e.toValue
          = ["institution", "website", "major", "minor", "start_date",
             "end_date", "current", "gpa", "achievements", "location",
             "degree", "latin_honors"]
        ∧ getNode e.toValue "institution" = some (Value.str e.institution)
        ∧ getNode e.toValue "website" = some (Value.str e.website)
        ∧ getNode e.toValue "major" = some (Value.str e.major)
        ∧ getNode e.toValue "minor" = some (Value.str e.minor)
        ∧ getNode e.toValue "start_date" = some (Value.str e.start_date)
        ∧ getNode e.toValue "end_date" = some (optionStringToValue e.end_date)
        ∧ getNode e.toValue "current" = some (Value.bool e.current)
        ∧ getNode e.toValue "gpa" = some e.gpa.toValue
        ∧ getNode e.toValue "achievements"
            = some (Value.arr (e.achievements.map Value.str))
        ∧ getNode e.toValue "location" = some (Value.str e.location)
        ∧ getNode e.toValue "degree" = some (Value.str e.degree)
        ∧ getNode e.toValue "latin_honors" = some (Value.str e.latin_honors))
    ∧ (∀ sk : Skill, entryKeys sk.toValue
          = ["name", "level", "keywords", "category"]
        ∧ getNode sk.toValue "name" = some (Value.str sk.name)
        ∧ getNode sk.toValue "level" = some (Value.str sk.level)
        ∧ getNode sk.toValue "keywords" = some (Value.str sk.keywords)
        ∧ getNode sk.toValue "category" = some (Value.str sk.category))
    ∧ (∀ p : Project, entryKeys p.toValue
          = ["name", "website", "source", "description"]
        ∧ getNode p.toValue "name" = some (Value.str p.name)
        ∧ getNode p.toValue "website" = some (Value.str p.website)
        ∧ getNode p.toValue "source" = some (Value.str p.source)
        ∧ getNode p.toValue "description" = some (Value.str p.description)) :=
  ⟨⟨_, rfl, rfl⟩, rfl, rfl, rfl, rfl, rfl, rfl, rfl, rfl, rfl, rfl, rfl, rfl, rfl,
   fun _ => ⟨rfl, rfl, rfl, rfl, rfl, rfl⟩,
   fun _ => ⟨rfl, rfl, rfl⟩,
   fun _ => ⟨rfl, rfl, rfl⟩,
   fun _ => ⟨rfl, rfl, rfl, rfl, rfl, rfl, rfl, rfl, rfl, rfl⟩,
   fun g => ⟨rfl, rfl, rfl,
     fun h => by simp [f64ToValue, h], fun h => by simp [f64ToValue, h],
     fun h => by simp [f64ToValue, h], fun h => by simp [f64ToValue, h]⟩,
   fun _ => ⟨rfl, rfl, rfl, rfl, rfl, rfl, rfl, rfl, rfl, rfl, rfl, rfl, rfl⟩,
   fun _ => ⟨rfl, rfl, rfl, rfl, rfl⟩,
   fun _ => ⟨rfl, rfl, rfl, rfl, rfl⟩⟩

/-- C2 witness: the amended claim exercised at the sample author, at the
NaN grade-point average (non-finite branch) and at a finite grade-point
average (number branch). -/
theorem context_builder_c2_witness :
    (∃ ctx : Context, contextFromSerialize sampleAuthor.toValue = Except.ok ctx
      ∧ ctx.data.map Prod.fst = ["name", "email", "description", "picture",
          "phone", "website", "location", "social", "experiences",
          "educations", "skills", "projects"])
    ∧ getNode (GradePointAverage.toValue nanGpa) "major"
        = some (f64ToValue nanGpa.major)
    ∧ (nanGpa.major.isFinite = false ∧ f64ToValue nanGpa.major = Value.null)
    ∧ ((F64.ofInt 4).isFinite = true
        ∧ f64ToValue (F64.ofInt 4) = Value.num (F64.ofInt 4)) := by
  have h := context_builder_c2 sampleAuthor
  have hg := h.2.2.2.2.2.2.2.2.2.2.2.2.2.2.2.2.2.2.1
  exact ⟨h.1, (hg nanGpa).2.1,
         ⟨rfl, (hg nanGpa).2.2.2.2.2.1 rfl⟩,
         ⟨rfl, (hg (GradePointAverage.mk (F64.ofInt 4) (F64.ofInt 4))).2.2.2.1 rfl⟩⟩

/-- C3: an otherwise well-typed document lacking the required name field
fails validation with the missing-field schema error naming "name" (not a
generic failure), and no document lacking "name" ever yields an Author. -/
theorem missing_required_field_c3 :
    (∀ email description picture phone website address postal city country
        region : String,
      deserializeAuthor (.table (authorKvsNoName email description picture
          phone website address postal city country region))
        = Except.error (SchemaError.missingField "name"))
    ∧ (∀ kvs : List (String × Toml), kvs.lookup "name" = none →
        ∀ a : Author, deserializeAuthor (.table kvs) ≠ Except.ok a) := by
  constructor
  · intro email description picture phone website address postal city country region
    rfl
  · intro kvs h a hok
    simp [deserializeAuthor, getField, h, Bind.bind, Except.bind] at hok

/-- C3 witness: a concrete document supplying every field except name fails
with the missing-field error for "name", and the empty document yields no
Author. -/
theorem missing_required_field_c3_witness :
    deserializeAuthor (.table (authorKvsNoName "e" "d" "p" "ph" "w" "ad"
        "pc" "ci" "co" "re"))
      = Except.error (SchemaError.missingField "name")
    ∧ (([] : List (String × Toml)).lookup "name" = none
        ∧ deserializeAuthor (.table ([] : List (String × Toml)))
            ≠ Except.ok sampleAuthor) :=
  ⟨missing_required_field_c3.1 "e" "d" "p" "ph" "w" "ad" "pc" "ci" "co" "re",
   rfl, missing_required_field_c3.2 [] rfl sampleAuthor⟩

/-- C7: an otherwise-valid Experience table with the optional end_date
entry unset validates with end_date absent, and with end_date present as a
structured date-time it validates to the canonical string form. -/
theorem optional_end_date_c7 (cname cloc department position website d1 h1 :
    String) (start : Datetime) (current : Bool) :
    deserializeExperience (.table (experienceKvs cname cloc department
        position website start none current d1 h1))
      = Except.ok { company := { name := cname, location := cloc },
                    department, position, website,
                    start_date := start.toString, end_date := none,
                    current, display := [d1], highlights := [h1] }
    ∧ ∀ d : Datetime,
        deserializeExperience (.table (experienceKvs cname cloc department
            position website start (some d) current d1 h1))
          = Except.ok { company := { name := cname, location := cloc },
                        department, position, website,
                        start_date := start.toString,
                        end_date := some d.toString,
                        current, display := [d1], highlights := [h1] } :=
  ⟨rfl, fun _ => rfl⟩

/-- C8: validation checks only structure, never the semantic consistency of
current and end_date: every combination of the current flag with a present
or absent end_date is accepted, for both Experience and Education. -/
theorem semantic_conflicts_accepted_c8 (current : Bool)
    (endd : Option Datetime) :
    (∃ exp : Experience,
        deserializeExperience (.table (experienceKvs "c" "l" "dep" "pos"
            "web" sampleDatetime endd current "d" "h"))
          = Except.ok exp
        ∧ exp.current = current
        ∧ exp.end_date = endd.map Datetime.toString)
    ∧ (∃ edu : Education,
        deserializeEducation (.table (educationKvs "i" "w" "maj" "min"
            sampleDatetime endd current ⟨1, true⟩ ⟨2, true⟩ "a" "loc" "deg"
            "hon"))
          = Except.ok edu
        ∧ edu.current = current
        ∧ edu.end_date = endd.map Datetime.toString) := by
  cases endd with
  | none => exact ⟨⟨_, rfl, rfl, rfl⟩, ⟨_, rfl, rfl, rfl⟩⟩
  | some d => exact ⟨⟨_, rfl, rfl, rfl⟩, ⟨_, rfl, rfl, rfl⟩⟩

/-- C9: the pipeline is terminal on first failure: when every stage before
rendering succeeds and rendering fails, the run aborts with the template
error whatever the compiler would do (it is never invoked), the exit is
unsuccessful (nonzero status), and no output file is written. -/
theorem render_failure_terminal_c9 {T : Type} (readData : Except IoError Toml)
    (loadTemplates : Except TemplateError T)
    (render : T → String → Context → Except TemplateError String)
    (templateFilename : String) (doc : Toml) (a : Author) (t : T)
    (ctx : Context) (e : TemplateError)
    (h1 : readData = Except.ok doc)
    (h2 : deserializeAuthor doc = Except.ok a)
    (h3 : loadTemplates = Except.ok t)
    (h4 : contextFromSerialize a.toValue = Except.ok ctx)
    (h5 : render t templateFilename ctx = Except.error e) :
    ∀ compile : String → Except CompilationError (List String),
      runMain readData loadTemplates render compile templateFilename
          = Except.error (RunError.template e)
      ∧ exitSuccess (runMain readData loadTemplates render compile
            templateFilename) = false
      ∧ writtenFiles (runMain readData loadTemplates render compile
            templateFilename) = [] := by
  intro compile
  have hrun : runMain readData loadTemplates render compile templateFilename
      = Except.error (RunError.template e) := by
    simp [runMain, h1, h2, h3, h4, h5, liftErr, Bind.bind, Except.bind]
  exact ⟨hrun, by rw [hrun]; rfl, by rw [hrun]; rfl⟩

/-- C9 witness: with the sample input document, a template engine whose
render step fails, and a compiler that would write an output file, the run
aborts with the template error, no file is written and the exit is
unsuccessful. -/
theorem render_failure_terminal_c9_witness :
    runMain (Except.ok (Toml.table sampleAuthorKvs))
        (Except.ok () : Except TemplateError Unit)
        (fun _ _ _ => Except.error (TemplateError.renderError "not found"))
        (fun _ => Except.ok ["resume.pdf"]) "resume.tex"
      = Except.error (RunError.template (TemplateError.renderError "not found"))
    ∧ exitSuccess (runMain (Except.ok (Toml.table sampleAuthorKvs))
        (Except.ok () : Except TemplateError Unit)
        (fun _ _ _ => Except.error (TemplateError.renderError "not found"))
        (fun _ => Except.ok ["resume.pdf"]) "resume.tex") = false
    ∧ writtenFiles (runMain (Except.ok (Toml.table sampleAuthorKvs))
        (Except.ok () : Except TemplateError Unit)
        (fun _ _ _ => Except.error (TemplateError.renderError "not found"))
        (fun _ => Except.ok ["resume.pdf"]) "resume.tex") = [] :=
  render_failure_terminal_c9 (Except.ok (Toml.table sampleAuthorKvs))
    (Except.ok () : Except TemplateError Unit)
    (fun _ _ _ => Except.error (TemplateError.renderError "not found"))
    "resume.tex" (Toml.table sampleAuthorKvs) sampleAuthor () sampleCtx
    (TemplateError.renderError "not found") rfl rfl rfl rfl rfl
    (fun _ => Except.ok ["resume.pdf"])

end Rsume
